import Mathlib

/-!
# Verification of the portfolio-management analytics engine

Shallow embedding of the quantitative analytics core of the
Portfolio-Management-Tool repository (risk, optimization, attribution,
stress testing), with theorems settling the specification claims.

Floating-point arithmetic is modelled exactly: the risk, attribution and
stress modules (pure rational arithmetic in the source) are embedded over
`ℚ`; the optimization module, whose statistics involve square roots, is
embedded over `ℝ`.  The SciPy SLSQP solver invoked by the optimizer is an
external black box and is modelled as an explicit function parameter from
a symbolic problem description to a solver outcome, mirroring the data the
source passes to `scipy.optimize.minimize` (objective selector, bounds,
equality constraints, initial point).
-/

namespace PortfolioManagement

/-! ## Risk module (`analytics/risk.py`, class `RiskAnalyzer`) -/

namespace Risk

/-- Arithmetic mean, `np.mean` (division by zero yields 0 for `[]`,
unreachable in the claims). -/
def mean (xs : List ℚ) : ℚ := xs.sum / xs.length

/-- `np.percentile(xs, q)` with the default linear interpolation:
sort ascending, take the virtual index `h = q/100 * (n-1)`, and
interpolate between the neighbouring order statistics. -/
def percentile (xs : List ℚ) (q : ℚ) : ℚ :=
  let s := List.insertionSort (· ≤ ·) xs
  let h : ℚ := q / 100 * ((s.length : ℚ) - 1)
  let i : ℕ := ⌊h⌋.toNat
  let a := s.getD i 0
  let b := s.getD (i + 1) a
  a + (h - (i : ℚ)) * (b - a)

/-- `RiskAnalyzer.calculate_var(returns, confidence_level, "historical",
portfolio_value)`: negated empirical quantile at `1 - confidence`, scaled
by the portfolio value. -/
def calculate_var (returns : List ℚ) (confidence_level : ℚ)
    (portfolio_value : ℚ) : ℚ :=
  -(percentile returns ((1 - confidence_level) * 100)) * portfolio_value

/-- `RiskAnalyzer.calculate_cvar(returns, confidence_level,
portfolio_value)`: negated mean of the observations at or below the
historical VaR threshold; if that tail is empty, falls back to
`calculate_var(returns, confidence_level)` (with the *default*
`portfolio_value = 1`, as in the source). -/
def calculate_cvar (returns : List ℚ) (confidence_level : ℚ)
    (portfolio_value : ℚ) : ℚ :=
  let threshold := percentile returns ((1 - confidence_level) * 100)
  let tail := returns.filter (fun r => decide (r ≤ threshold))
  if tail = [] then calculate_var returns confidence_level 1
  else -(mean tail) * portfolio_value

/-- Sample covariance `np.cov(x, y)[0, 1]` (ddof = 1). -/
def sampleCov (x y : List ℚ) : ℚ :=
  let mx := mean x
  let my := mean y
  ((x.zip y).map (fun p => (p.1 - mx) * (p.2 - my))).sum / ((x.length : ℚ) - 1)

/-- Sample variance `np.var(x, ddof=1)`. -/
def sampleVar (x : List ℚ) : ℚ :=
  let mx := mean x
  (x.map (fun v => (v - mx) ^ 2)).sum / ((x.length : ℚ) - 1)

/-- `RiskAnalyzer.calculate_beta(returns, benchmark_returns)`:
mismatched lengths are truncated to the shorter one, then
`cov(r, b) / var(b)`, returning 0 when the benchmark variance is 0. -/
def calculate_beta (returns benchmark_returns : List ℚ) : ℚ :=
  let p :=
    if returns.length = benchmark_returns.length then
      (returns, benchmark_returns)
    else
      let m := min returns.length benchmark_returns.length
      (returns.take m, benchmark_returns.take m)
  let covariance := sampleCov p.1 p.2
  let benchmark_variance := sampleVar p.2
  if benchmark_variance = 0 then 0 else covariance / benchmark_variance

/-- `RiskAnalyzer.calculate_returns(prices, method)`: log returns for
`method == "log"`, otherwise `np.diff(prices) / prices[:-1]`
(consecutive-pair simple returns).  Any other method string falls
through to the simple branch without an error. -/
noncomputable def calculate_returns (prices : List ℝ) (method : String) :
    List ℝ :=
  if method = "log" then
    List.zipWith (fun a b => Real.log b - Real.log a) prices prices.tail
  else
    List.zipWith (fun a b => (b - a) / a) prices prices.tail

lemma exists_mem_le_percentile (xs : List ℚ) (q : ℚ) (hne : xs ≠ [])
    (hq0 : 0 ≤ q) (hq1 : q ≤ 100) :
    ∃ x ∈ xs, x ≤ percentile xs q := by
  have hperm : List.Perm (List.insertionSort (· ≤ ·) xs) xs :=
    List.perm_insertionSort _ xs
  have hsorted : (List.insertionSort (· ≤ ·) xs).Sorted (· ≤ ·) :=
    List.sorted_insertionSort _ xs
  simp only [percentile]
  set s := List.insertionSort (· ≤ ·) xs with hs
  set n := s.length with hn
  set h : ℚ := q / 100 * ((n : ℚ) - 1) with hh
  set i : ℕ := ⌊h⌋.toNat with hi
  have hslen : 0 < n := by
    rw [hn, hperm.length_eq]; exact List.length_pos.mpr hne
  have hn1 : (1 : ℚ) ≤ (n : ℚ) := by exact_mod_cast hslen
  have hq100 : q / 100 ≤ 1 := (div_le_one (by norm_num)).mpr hq1
  have hq100' : 0 ≤ q / 100 := by positivity
  have hh0 : 0 ≤ h := by rw [hh]; exact mul_nonneg hq100' (by linarith)
  have hfloor0 : (0 : ℤ) ≤ ⌊h⌋ := Int.floor_nonneg.mpr hh0
  have hicast : (i : ℚ) = ((⌊h⌋ : ℤ) : ℚ) := by
    rw [hi]; exact_mod_cast Int.toNat_of_nonneg hfloor0
  have hile : (i : ℚ) ≤ h := by rw [hicast]; exact Int.floor_le h
  have hhle : h ≤ (n : ℚ) - 1 := by
    rw [hh]
    calc q / 100 * ((n : ℚ) - 1) ≤ 1 * ((n : ℚ) - 1) :=
          mul_le_mul_of_nonneg_right hq100 (by linarith)
      _ = (n : ℚ) - 1 := one_mul _
  have hin : i < n := by
    have h1 : (i : ℚ) ≤ (n : ℚ) - 1 := le_trans hile hhle
    have h2 : (i : ℚ) < (n : ℚ) := by linarith
    exact_mod_cast h2
  have ha : s.getD i 0 = s.get ⟨i, hin⟩ := by
    rw [List.getD_eq_getElem?_getD, List.getElem?_eq_getElem hin]; rfl
  have hhead : s.get ⟨0, hslen⟩ ≤ s.get ⟨i, hin⟩ :=
    hsorted.rel_get_of_le (by exact Fin.mk_le_mk.mpr (Nat.zero_le i))
  have hab : s.get ⟨i, hin⟩ ≤ s.getD (i + 1) (s.getD i 0) := by
    by_cases hib : i + 1 < n
    · have : s.getD (i + 1) (s.getD i 0) = s.get ⟨i + 1, hib⟩ := by
        rw [List.getD_eq_getElem?_getD, List.getElem?_eq_getElem hib]; rfl
      rw [this]
      exact hsorted.rel_get_of_lt (by exact Fin.mk_lt_mk.mpr (Nat.lt_succ_self i))
    · have hge : n ≤ i + 1 := Nat.le_of_not_lt hib
      rw [List.getD_eq_getElem?_getD, List.getElem?_eq_none (by omega),
        Option.getD_none, ha]
  refine ⟨s.get ⟨0, hslen⟩, hperm.subset (List.get_mem s 0 hslen), ?_⟩
  have hfr : 0 ≤ h - (i : ℚ) := by linarith
  have hba : 0 ≤ s.getD (i + 1) (s.getD i 0) - s.getD i 0 := by
    rw [ha] at hab ⊢; linarith
  have : s.get ⟨0, hslen⟩ ≤ s.getD i 0 := by rw [ha]; exact hhead
  nlinarith [mul_nonneg hfr hba]

lemma mean_le_of_forall_le (l : List ℚ) (t : ℚ) (hne : l ≠ [])
    (hall : ∀ x ∈ l, x ≤ t) : mean l ≤ t := by
  have hlen : 0 < (l.length : ℚ) := by exact_mod_cast List.length_pos.mpr hne
  have hsum : l.sum ≤ l.length • t := List.sum_le_card_nsmul l t hall
  rw [mean, div_le_iff₀ hlen]
  calc l.sum ≤ l.length • t := hsum
    _ = (l.length : ℚ) * t := by rw [nsmul_eq_mul]
    _ = t * (l.length : ℚ) := mul_comm _ _

/-- **C1.** For every non-empty returns list and confidence `c ∈ (0,1)`
(and any common nonnegative portfolio value), `calculate_cvar` is at
least the historical `calculate_var`: the CVaR tail always contains the
sample minimum (the interpolated percentile never falls below it), so
CVaR is the negated mean of values all at or below the VaR threshold. -/
theorem calculate_cvar_ge_var (returns : List ℚ) (c pv : ℚ)
    (hne : returns ≠ []) (hc0 : 0 < c) (hc1 : c < 1) (hpv : 0 ≤ pv) :
    calculate_var returns c pv ≤ calculate_cvar returns c pv := by
  have hq0 : 0 ≤ (1 - c) * 100 := by linarith
  have hq1 : (1 - c) * 100 ≤ 100 := by linarith
  obtain ⟨x, hx, hxt⟩ := exists_mem_le_percentile returns ((1 - c) * 100) hne hq0 hq1
  set t := percentile returns ((1 - c) * 100) with ht
  have hxtail : x ∈ returns.filter (fun r => decide (r ≤ t)) :=
    List.mem_filter.mpr ⟨hx, decide_eq_true hxt⟩
  have htail : returns.filter (fun r => decide (r ≤ t)) ≠ [] :=
    List.ne_nil_of_mem hxtail
  have hmean : mean (returns.filter (fun r => decide (r ≤ t))) ≤ t := by
    apply mean_le_of_forall_le _ _ htail
    intro y hy
    exact of_decide_eq_true (List.mem_filter.mp hy).2
  rw [calculate_cvar, calculate_var]
  simp only [← ht, if_neg htail]
  have : -t ≤ -(mean (returns.filter (fun r => decide (r ≤ t)))) := by linarith
  calc -t * pv ≤ -(mean (returns.filter (fun r => decide (r ≤ t)))) * pv :=
        mul_le_mul_of_nonneg_right this hpv
    _ = _ := rfl

/-- Witness for C1 at the concrete sample `[-2, 1, 3]`, `c = 0.95`,
portfolio value 2. -/
theorem calculate_cvar_ge_var_witness :
    ((([(-2 : ℚ), 1, 3] : List ℚ) ≠ [] ∧ (0 : ℚ) < 19/20 ∧ (19 : ℚ)/20 < 1 ∧
        (0 : ℚ) ≤ 2) ∧
      calculate_var [(-2 : ℚ), 1, 3] (19/20) 2 ≤
        calculate_cvar [(-2 : ℚ), 1, 3] (19/20) 2) :=
  ⟨⟨by decide, by norm_num, by norm_num, by norm_num⟩,
    calculate_cvar_ge_var [(-2 : ℚ), 1, 3] (19/20) 2 (by decide) (by norm_num)
      (by norm_num) (by norm_num)⟩

/-- **C7.** `calculate_beta` truncates mismatched series to the shorter
length: on a 100-observation portfolio series and an 80-observation
benchmark it agrees with first cutting the portfolio series to 80. -/
theorem calculate_beta_truncation (r b : List ℚ) (hr : r.length = 100)
    (hb : b.length = 80) :
    calculate_beta r b = calculate_beta (r.take 80) b := by
  have h1 : r.length ≠ b.length := by rw [hr, hb]; decide
  have h2 : (r.take 80).length = b.length := by
    rw [List.length_take, hr, hb]; decide
  have hmin : min r.length b.length = 80 := by rw [hr, hb]; decide
  have hbt : b.take 80 = b := List.take_of_length_le (le_of_eq hb)
  have hrt : (r.take (min r.length b.length), b.take (min r.length b.length)) =
      (r.take 80, b) := by rw [hmin, hbt]
  simp only [calculate_beta, if_neg h1, if_pos h2, hrt]

/-- Witness for C7 on concrete constant series of lengths 100 and 80. -/
theorem calculate_beta_truncation_witness :
    ((List.replicate 100 (0 : ℚ)).length = 100 ∧
        (List.replicate 80 (1 : ℚ)).length = 80) ∧
      calculate_beta (List.replicate 100 (0 : ℚ)) (List.replicate 80 (1 : ℚ)) =
        calculate_beta ((List.replicate 100 (0 : ℚ)).take 80)
          (List.replicate 80 (1 : ℚ)) :=
  ⟨⟨List.length_replicate 100 0, List.length_replicate 80 1⟩,
    calculate_beta_truncation _ _ (List.length_replicate 100 0)
      (List.length_replicate 80 1)⟩

/-- **C9.** For any method string other than `"log"` (case-sensitive,
so also `"LOG"` or `"foo"`), `calculate_returns` silently computes the
simple-return transform `diff(prices) / prices[:-1]` and never fails. -/
theorem calculate_returns_unknown_method (prices : List ℝ) (method : String)
    (hm : method ≠ "log") :
    calculate_returns prices method =
      List.zipWith (fun a b => (b - a) / a) prices prices.tail := by
  rw [calculate_returns, if_neg hm]

/-- Witness for C9: the unrecognized method `"LOG"` yields simple
returns on the concrete prices `[1, 2, 4]`. -/
theorem calculate_returns_unknown_method_witness :
    ("LOG" ≠ "log") ∧
      calculate_returns [(1 : ℝ), 2, 4] "LOG" =
        List.zipWith (fun a b => (b - a) / a) [(1 : ℝ), 2, 4]
          ([(1 : ℝ), 2, 4] : List ℝ).tail :=
  ⟨by decide, calculate_returns_unknown_method [(1 : ℝ), 2, 4] "LOG" (by decide)⟩

end Risk

/-! ## Attribution module (`analytics/attribution.py`,
class `AttributionAnalyzer`) -/

namespace Attribution

/-- One row of Brinson-Fachler output (`SectorAttribution` dataclass). -/
structure SectorAttribution where
  sector : String
  portfolio_weight : ℚ
  benchmark_weight : ℚ
  portfolio_return : ℚ
  benchmark_return : ℚ
  allocation_effect : ℚ
  selection_effect : ℚ
  interaction_effect : ℚ
  total_effect : ℚ
  deriving DecidableEq, Repr

/-- Python `dict.get(k, 0.0)` on a string-keyed map of floats. -/
def getD0 (m : List (String × ℚ)) (k : String) : ℚ :=
  match m.find? (fun p => p.1 == k) with
  | some p => p.2
  | none => 0

/-- The union of the sectors appearing in the two weight maps
(`set(pw) | set(bw)`; order is irrelevant to every claim). -/
def allSectors (portfolio_weights benchmark_weights : List (String × ℚ)) :
    List String :=
  (portfolio_weights.map Prod.fst ++ benchmark_weights.map Prod.fst).dedup

/-- `sum(bw.get(s, 0) * br.get(s, 0) for s in all_sectors)`. -/
def totalBenchmarkReturn (portfolio_weights benchmark_weights
    benchmark_returns : List (String × ℚ)) : ℚ :=
  ((allSectors portfolio_weights benchmark_weights).map
    (fun s => getD0 benchmark_weights s * getD0 benchmark_returns s)).sum

/-- `AttributionAnalyzer.calculate_brinson_fachler_attribution`. -/
def calculate_brinson_fachler_attribution
    (portfolio_weights benchmark_weights portfolio_returns
      benchmark_returns : List (String × ℚ)) : List SectorAttribution :=
  let total_benchmark_return :=
    totalBenchmarkReturn portfolio_weights benchmark_weights benchmark_returns
  (allSectors portfolio_weights benchmark_weights).map (fun sector =>
    let pw := getD0 portfolio_weights sector
    let bw := getD0 benchmark_weights sector
    let pr := getD0 portfolio_returns sector
    let br := getD0 benchmark_returns sector
    let allocation := (pw - bw) * (br - total_benchmark_return)
    let selection := bw * (pr - br)
    let interaction := (pw - bw) * (pr - br)
    { sector := sector
      portfolio_weight := pw
      benchmark_weight := bw
      portfolio_return := pr
      benchmark_return := br
      allocation_effect := allocation
      selection_effect := selection
      interaction_effect := interaction
      total_effect := allocation + selection + interaction })

/-- **C6.** For every input and every sector in the union of the two
weight maps (missing entries defaulting to 0), the returned record has
`allocation = (pw-bw)(br-totalBenchmarkReturn)`, `selection = bw(pr-br)`,
`interaction = (pw-bw)(pr-br)` and
`total = allocation + selection + interaction`, exactly. -/
theorem brinson_fachler_effects
    (pw bw pr br : List (String × ℚ)) (s : String)
    (hs : s ∈ allSectors pw bw) :
    ∃ a ∈ calculate_brinson_fachler_attribution pw bw pr br,
      a.sector = s ∧
      a.allocation_effect =
        (getD0 pw s - getD0 bw s) *
          (getD0 br s - totalBenchmarkReturn pw bw br) ∧
      a.selection_effect = getD0 bw s * (getD0 pr s - getD0 br s) ∧
      a.interaction_effect = (getD0 pw s - getD0 bw s) *
        (getD0 pr s - getD0 br s) ∧
      a.total_effect =
        a.allocation_effect + a.selection_effect + a.interaction_effect := by
  refine ⟨_, List.mem_map_of_mem _ hs, rfl, rfl, rfl, rfl, rfl⟩

/-- Witness for C6 on a concrete pair of weight maps whose key sets
differ. -/
theorem brinson_fachler_effects_witness :
    ("Fin" ∈ allSectors [("Tech", (1 : ℚ)/2)] [("Fin", (1 : ℚ))]) ∧
      ∃ a ∈ calculate_brinson_fachler_attribution
          [("Tech", (1 : ℚ)/2)] [("Fin", (1 : ℚ))]
          [("Tech", (1 : ℚ)/10)] [("Fin", -(1 : ℚ)/20)],
        a.sector = "Fin" ∧
        a.allocation_effect =
          (getD0 [("Tech", (1 : ℚ)/2)] "Fin" - getD0 [("Fin", (1 : ℚ))] "Fin") *
            (getD0 [("Fin", -(1 : ℚ)/20)] "Fin" -
              totalBenchmarkReturn [("Tech", (1 : ℚ)/2)] [("Fin", (1 : ℚ))]
                [("Fin", -(1 : ℚ)/20)]) ∧
        a.selection_effect = getD0 [("Fin", (1 : ℚ))] "Fin" *
          (getD0 [("Tech", (1 : ℚ)/10)] "Fin" - getD0 [("Fin", -(1 : ℚ)/20)] "Fin") ∧
        a.interaction_effect =
          (getD0 [("Tech", (1 : ℚ)/2)] "Fin" - getD0 [("Fin", (1 : ℚ))] "Fin") *
            (getD0 [("Tech", (1 : ℚ)/10)] "Fin" - getD0 [("Fin", -(1 : ℚ)/20)] "Fin") ∧
        a.total_effect =
          a.allocation_effect + a.selection_effect + a.interaction_effect :=
  ⟨by decide,
    brinson_fachler_effects [("Tech", (1 : ℚ)/2)] [("Fin", (1 : ℚ))]
      [("Tech", (1 : ℚ)/10)] [("Fin", -(1 : ℚ)/20)] "Fin" (by decide)⟩

end Attribution

/-! ## Stress-testing module (`analytics/stress_testing.py`,
class `StressTestEngine`) -/

namespace Stress

/-- `ScenarioType` enum. -/
inductive ScenarioType where
  | historical
  | hypothetical
  | custom
  deriving DecidableEq, Repr

/-- `Scenario` dataclass; dates are modelled as `(year, month, day)`. -/
structure Scenario where
  name : String
  scenario_type : ScenarioType
  description : String := ""
  equity_shock : ℚ := 0
  rates_shock_bps : ℚ := 0
  credit_spread_shock_bps : ℚ := 0
  fx_shocks : List (String × ℚ) := []
  commodity_shocks : List (String × ℚ) := []
  volatility_shock : ℚ := 0
  start_date : Option (ℕ × ℕ × ℕ) := none
  end_date : Option (ℕ × ℕ × ℕ) := none
  deriving DecidableEq, Repr

/-- The module-level `HISTORICAL_SCENARIOS` dict, in insertion order. -/
def HISTORICAL_SCENARIOS : List (String × Scenario) :=
  [("GFC_2008",
    { name := "Global Financial Crisis 2008"
      scenario_type := .historical
      description := "Sept-Nov 2008 financial crisis period"
      equity_shock := -45/100
      rates_shock_bps := -200
      credit_spread_shock_bps := 500
      volatility_shock := 60
      start_date := some (2008, 9, 15)
      end_date := some (2008, 11, 20) }),
   ("COVID_2020",
    { name := "COVID Crash 2020"
      scenario_type := .historical
      description := "Feb-Mar 2020 pandemic crash"
      equity_shock := -35/100
      rates_shock_bps := -150
      credit_spread_shock_bps := 350
      volatility_shock := 65
      start_date := some (2020, 2, 19)
      end_date := some (2020, 3, 23) }),
   ("DOTCOM_2000",
    { name := "Dot-Com Crash 2000"
      scenario_type := .historical
      description := "Tech bubble burst 2000-2002"
      equity_shock := -50/100
      rates_shock_bps := -300
      credit_spread_shock_bps := 200
      volatility_shock := 30
      start_date := some (2000, 3, 10)
      end_date := some (2002, 10, 9) }),
   ("INFLATION_2022",
    { name := "Inflation Spike 2022"
      scenario_type := .historical
      description := "2022 inflation and rate hiking cycle"
      equity_shock := -25/100
      rates_shock_bps := 300
      credit_spread_shock_bps := 150
      volatility_shock := 15
      start_date := some (2022, 1, 1)
      end_date := some (2022, 10, 12) }),
   ("FED_TAPER_2013",
    { name := "Taper Tantrum 2013"
      scenario_type := .historical
      description := "Fed tightening announcement shock"
      equity_shock := -8/100
      rates_shock_bps := 100
      credit_spread_shock_bps := 50
      volatility_shock := 8
      start_date := some (2013, 5, 22)
      end_date := some (2013, 8, 30) }),
   ("OIL_CRASH_2014",
    { name := "Oil Price Crash 2014-2015"
      scenario_type := .historical
      description := "Oil price collapse from $100+ to below $30"
      equity_shock := -10/100
      rates_shock_bps := -50
      credit_spread_shock_bps := 200
      commodity_shocks := [("OIL", -70/100), ("NATURAL_GAS", -30/100)]
      start_date := some (2014, 6, 20)
      end_date := some (2016, 2, 11) }),
   ("CHINA_DEVALUATION_2015",
    { name := "China Devaluation 2015"
      scenario_type := .historical
      description := "China CNY devaluation and growth concerns"
      equity_shock := -12/100
      rates_shock_bps := -25
      credit_spread_shock_bps := 100
      fx_shocks := [("USD/CNY", 5/100), ("USD/EUR", -3/100)]
      start_date := some (2015, 8, 11)
      end_date := some (2016, 2, 11) })]

/-- The module-level `HYPOTHETICAL_SCENARIOS` dict, in insertion order. -/
def HYPOTHETICAL_SCENARIOS : List (String × Scenario) :=
  [("RATES_UP_200",
    { name := "Rates +200bps"
      scenario_type := .hypothetical
      description := "Parallel shift up in rates by 200 basis points"
      equity_shock := -10/100
      rates_shock_bps := 200
      credit_spread_shock_bps := 50 }),
   ("RATES_DOWN_200",
    { name := "Rates -200bps"
      scenario_type := .hypothetical
      description := "Parallel shift down in rates by 200 basis points"
      equity_shock := 5/100
      rates_shock_bps := -200
      credit_spread_shock_bps := -25 }),
   ("EQUITY_VOL_40",
    { name := "Equity Vol +40"
      scenario_type := .hypothetical
      description := "VIX spike to 40"
      equity_shock := -15/100
      volatility_shock := 40
      credit_spread_shock_bps := 100 }),
   ("EQUITY_VOL_80",
    { name := "Equity Vol +80"
      scenario_type := .hypothetical
      description := "VIX spike to 80 (crisis level)"
      equity_shock := -30/100
      volatility_shock := 80
      credit_spread_shock_bps := 250 }),
   ("EQUITY_VOL_120",
    { name := "Equity Vol +120"
      scenario_type := .hypothetical
      description := "VIX spike to 120 (extreme crisis)"
      equity_shock := -45/100
      volatility_shock := 120
      credit_spread_shock_bps := 500 }),
   ("CREDIT_CRISIS",
    { name := "Credit Crisis"
      scenario_type := .hypothetical
      description := "Major credit spread widening"
      equity_shock := -20/100
      rates_shock_bps := -100
      credit_spread_shock_bps := 400 }),
   ("STAGFLATION",
    { name := "Stagflation"
      scenario_type := .hypothetical
      description := "High inflation with weak growth"
      equity_shock := -25/100
      rates_shock_bps := 150
      credit_spread_shock_bps := 200
      commodity_shocks := [("OIL", 40/100), ("GOLD", 20/100)] }),
   ("USD_CRISIS",
    { name := "USD Crisis"
      scenario_type := .hypothetical
      description := "Major USD weakness"
      equity_shock := -10/100
      rates_shock_bps := 50
      fx_shocks := [("USD/EUR", -15/100), ("USD/JPY", -10/100),
        ("USD/GBP", -12/100)] }),
   ("EM_CONTAGION",
    { name := "EM Contagion"
      scenario_type := .hypothetical
      description := "Emerging market crisis with contagion"
      equity_shock := -20/100
      rates_shock_bps := -50
      credit_spread_shock_bps := 300
      fx_shocks := [("USD/BRL", 25/100), ("USD/MXN", 20/100),
        ("USD/ZAR", 30/100)] }),
   ("COMMODITY_CRASH",
    { name := "Commodity Crash"
      scenario_type := .hypothetical
      description := "Broad commodity price collapse"
      equity_shock := -15/100
      rates_shock_bps := -100
      commodity_shocks := [("OIL", -40/100), ("COPPER", -30/100),
        ("IRON_ORE", -35/100)] })]

/-- Python `dict[key] = value`: replace in place if the key exists,
append otherwise (a dict built without duplicate keys stays that way). -/
def dictInsert (m : List (String × Scenario)) (k : String) (v : Scenario) :
    List (String × Scenario) :=
  if m.any (fun p => p.1 == k) then
    m.map (fun p => if p.1 == k then (k, v) else p)
  else m ++ [(k, v)]

/-- Python `dict.update(other)`. -/
def dictUpdate (m other : List (String × Scenario)) :
    List (String × Scenario) :=
  other.foldl (fun acc p => dictInsert acc p.1 p.2) m

/-- The catalog after `StressTestEngine.__init__` /
`_load_default_scenarios`: the empty dict updated with the historical
then the hypothetical scenarios. -/
def defaultScenarios : List (String × Scenario) :=
  dictUpdate (dictUpdate [] HISTORICAL_SCENARIOS) HYPOTHETICAL_SCENARIOS

/-- `StressTestEngine.add_scenario(key, scenario)`:
`self.scenarios[key] = scenario`. -/
def add_scenario (scenarios : List (String × Scenario)) (key : String)
    (scenario : Scenario) : List (String × Scenario) :=
  dictInsert scenarios key scenario

/-- `StressTestEngine.get_scenario(key)`: `self.scenarios.get(key)`. -/
def get_scenario (scenarios : List (String × Scenario)) (key : String) :
    Option Scenario :=
  (scenarios.find? (fun p => p.1 == key)).map Prod.snd

/-- `StressTestEngine.calculate_equity_impact(positions, equity_shock)`:
per-position `value * beta * shock` accumulated into a total and a
per-position impact map (in position order). -/
def calculate_equity_impact (positions : List (String × ℚ × ℚ))
    (equity_shock : ℚ) : ℚ × List (String × ℚ) :=
  positions.foldl
    (fun acc p =>
      let impact := p.2.1 * p.2.2 * equity_shock
      (acc.1 + impact, acc.2 ++ [(p.1, impact)]))
    (0, [])

lemma equity_impact_foldl (positions : List (String × ℚ × ℚ)) (shock : ℚ)
    (t : ℚ) (l : List (String × ℚ)) :
    positions.foldl
      (fun acc p =>
        let impact := p.2.1 * p.2.2 * shock
        (acc.1 + impact, acc.2 ++ [(p.1, impact)]))
      (t, l) =
    (t + (positions.map (fun p => p.2.1 * p.2.2 * shock)).sum,
      l ++ positions.map (fun p => (p.1, p.2.1 * p.2.2 * shock))) := by
  induction positions generalizing t l with
  | nil => simp
  | cons p rest ih => simp [ih, add_assoc]

/-- **C8.** `calculate_equity_impact` returns per-position
`value * beta * shock` and their sum as the total; the catalog's
`GFC_2008` scenario has equity shock `-0.45`, and applying it to
`{"AAPL": (100000, 1.2)}` yields equity impact `-54000`. -/
theorem calculate_equity_impact_spec :
    (∀ (positions : List (String × ℚ × ℚ)) (shock : ℚ),
        calculate_equity_impact positions shock =
          ((positions.map (fun p => p.2.1 * p.2.2 * shock)).sum,
            positions.map (fun p => (p.1, p.2.1 * p.2.2 * shock)))) ∧
      (get_scenario defaultScenarios "GFC_2008").map
        (fun sc => sc.equity_shock) = some (-45/100) ∧
      (calculate_equity_impact [("AAPL", (100000 : ℚ), 12/10)]
        (-45/100)).1 = -54000 := by
  refine ⟨fun positions shock => ?_, ?_, ?_⟩
  · rw [calculate_equity_impact, equity_impact_foldl]
    simp
  · simp +decide [get_scenario, defaultScenarios, dictUpdate, dictInsert,
      HISTORICAL_SCENARIOS, HYPOTHETICAL_SCENARIOS, List.find?]
  · rw [calculate_equity_impact, equity_impact_foldl]
    norm_num

lemma get_dictInsert_self (m : List (String × Scenario)) (k : String)
    (v : Scenario) : get_scenario (dictInsert m k v) k = some v := by
  rw [dictInsert]
  by_cases hany : m.any (fun p => p.1 == k)
  · rw [if_pos hany, get_scenario]
    induction m with
    | nil => simp at hany
    | cons p rest ih =>
      by_cases hp : p.1 == k
      · simp [List.find?, hp]
      · have hrest : rest.any (fun p => p.1 == k) := by
          simpa [List.any_cons, hp] using hany
        simpa [List.find?, hp] using ih hrest
  · rw [if_neg hany, get_scenario]
    have hnone : m.find? (fun p => p.1 == k) = none := by
      rw [List.find?_eq_none]
      intro p hp
      exact fun hc => hany (List.any_eq_true.mpr ⟨p, hp, hc⟩)
    rw [List.find?_append, hnone]
    simp [List.find?]

lemma get_dictInsert_other (m : List (String × Scenario)) (k : String)
    (v : Scenario) (k' : String) (hk : k' ≠ k) :
    get_scenario (dictInsert m k v) k' = get_scenario m k' := by
  have hkk : (k == k') = false := by
    simp only [beq_eq_false_iff_ne]; exact fun h => hk h.symm
  rw [dictInsert]
  by_cases hany : m.any (fun p => p.1 == k)
  · rw [if_pos hany]
    simp only [get_scenario]
    clear hany
    induction m with
    | nil => rfl
    | cons p rest ih =>
      rw [List.map_cons]
      by_cases hp : (p.1 == k) = true
      · rw [if_pos hp]
        have hpk : p.1 = k := by simpa using hp
        have h1 : List.find? (fun q => q.1 == k')
            (((k, v) : String × Scenario) ::
              rest.map (fun p => if (p.1 == k) = true then (k, v) else p)) =
            List.find? (fun q => q.1 == k')
              (rest.map (fun p => if (p.1 == k) = true then (k, v) else p)) :=
          List.find?_cons_of_neg _ (by simp [hkk])
        have h2 : List.find? (fun q => q.1 == k') (p :: rest) =
            List.find? (fun q => q.1 == k') rest :=
          List.find?_cons_of_neg _ (by simp [hpk]; simpa using hkk)
        rw [h1, h2, ih]
      · rw [if_neg hp]
        by_cases hp' : (p.1 == k') = true
        · have h1 : List.find? (fun q => q.1 == k')
              (p :: rest.map (fun p => if (p.1 == k) = true then (k, v) else p)) =
              some p := List.find?_cons_of_pos _ hp'
          have h2 : List.find? (fun q => q.1 == k') (p :: rest) = some p :=
            List.find?_cons_of_pos _ hp'
          rw [h1, h2]
        · have h1 : List.find? (fun q => q.1 == k')
              (p :: rest.map (fun p => if (p.1 == k) = true then (k, v) else p)) =
              List.find? (fun q => q.1 == k')
                (rest.map (fun p => if (p.1 == k) = true then (k, v) else p)) :=
            List.find?_cons_of_neg _ (by simpa using hp')
          have h2 : List.find? (fun q => q.1 == k') (p :: rest) =
              List.find? (fun q => q.1 == k') rest :=
            List.find?_cons_of_neg _ (by simpa using hp')
          rw [h1, h2, ih]
  · rw [if_neg hany]
    simp only [get_scenario, List.find?_append]
    have : List.find? (fun p => p.1 == k') [(k, v)] = none := by
      simp [List.find?, hkk]
    rw [this]
    simp

/-- **C10.** `add_scenario` stores the scenario at its key — replacing
any existing catalog entry, including the predefined ones — and leaves
every other key's lookup unchanged. -/
theorem add_scenario_spec (m : List (String × Scenario)) (k : String)
    (sc : Scenario) (k' : String) (hk : k' ≠ k) :
    get_scenario (add_scenario m k sc) k = some sc ∧
      get_scenario (add_scenario m k sc) k' = get_scenario m k' :=
  ⟨get_dictInsert_self m k sc, get_dictInsert_other m k sc k' hk⟩

/-- A user-defined scenario used to exercise `add_scenario` on the
default catalog. -/
def sampleCustomScenario : Scenario :=
  { name := "Custom Crash"
    scenario_type := .custom
    equity_shock := -1/10 }

/-- Witness for C10: overwriting the predefined `"GFC_2008"` key in the
default catalog replaces it and leaves `"COVID_2020"` untouched. -/
theorem add_scenario_spec_witness :
    ("COVID_2020" ≠ "GFC_2008") ∧
      (get_scenario (add_scenario defaultScenarios "GFC_2008"
          sampleCustomScenario) "GFC_2008" = some sampleCustomScenario ∧
        get_scenario (add_scenario defaultScenarios "GFC_2008"
          sampleCustomScenario) "COVID_2020" =
          get_scenario defaultScenarios "COVID_2020") :=
  ⟨by decide,
    add_scenario_spec defaultScenarios "GFC_2008" sampleCustomScenario
      "COVID_2020" (by decide)⟩

end Stress

/-! ## Optimization module (`analytics/optimization.py`,
class `PortfolioOptimizer`)

The SciPy SLSQP call is a black box; it is modelled as a function
parameter from a `SolverProblem` — the symbolic description of exactly
the data the source passes to `scipy.optimize.minimize` (selected
objective function, per-asset bounds, the equality-constraint set, and
the initial point) — to a `SolverResult` mirroring the fields the source
reads back (`success`, `x`, `message`, `nit`). -/

namespace Optimization

/-- `np.dot` of two vectors. -/
def dot (x y : List ℝ) : ℝ := (List.zipWith (· * ·) x y).sum

/-- `np.dot(matrix, vector)`: row-wise dot products. -/
def matVec (m : List (List ℝ)) (v : List ℝ) : List ℝ :=
  m.map (fun row => dot row v)

/-- `OptimizationObjective` enum. -/
inductive OptimizationObjective where
  | MAX_SHARPE
  | MIN_VARIANCE
  | MAX_RETURN
  | RISK_PARITY
  | TARGET_RETURN
  | TARGET_VOLATILITY
  deriving DecidableEq, Repr

/-- `OptimizationConstraints` dataclass (fields read by
`mean_variance_optimization` and `efficient_frontier`). -/
structure OptimizationConstraints where
  min_weight : ℝ := 0
  max_weight : ℝ := 1
  max_sector_weight : Option ℝ := none
  target_return : Option ℝ := none
  target_volatility : Option ℝ := none
  long_only : Bool := true
  max_turnover : Option ℝ := none
  min_positions : Option ℕ := none
  max_positions : Option ℕ := none

/-- `OptimizationConstraints()` with all defaults. -/
def defaultConstraints : OptimizationConstraints := {}

/-- The three objective functions the source can hand to the solver
(`neg_sharpe`, `portfolio_variance`, `neg_return`). -/
inductive ObjFun where
  | negSharpe
  | variance
  | negReturn
  deriving DecidableEq, Repr

/-- The data `mean_variance_optimization` passes to
`scipy.optimize.minimize`.  `eqPinReturn = some t` stands for the extra
equality constraint `np.dot(x, expected_returns) - t`; `eqPinVol`
likewise for the volatility pin; the `Σw = 1` budget constraint is
always present (see `eqConstraintFuns`). -/
structure SolverProblem where
  objFun : ObjFun
  bounds : List (ℝ × ℝ)
  eqPinReturn : Option ℝ
  eqPinVol : Option ℝ
  init : List ℝ

/-- The fields of the SciPy result object the source reads. -/
structure SolverResult where
  success : Bool
  x : List ℝ
  message : String
  nit : ℕ

/-- The full equality-constraint function list the solver receives:
the budget constraint plus the optional return/volatility pins. -/
noncomputable def eqConstraintFuns (expected_returns : List ℝ)
    (cov_matrix : List (List ℝ)) (p : SolverProblem) :
    List (List ℝ → ℝ) :=
  [fun (x : List ℝ) => x.sum - 1] ++
    (match p.eqPinReturn with
     | some t => [fun (x : List ℝ) => dot x expected_returns - t]
     | none => []) ++
    (match p.eqPinVol with
     | some v =>
        [fun (x : List ℝ) => Real.sqrt (dot x (matVec cov_matrix x)) - v]
     | none => [])

/-- `OptimizationResult` dataclass. -/
structure OptimizationResult where
  weights : List (String × ℝ)
  expected_return : ℝ
  expected_volatility : ℝ
  sharpe_ratio : ℝ
  success : Bool
  message : String
  iterations : ℕ

/-- The analyzer's default annual risk-free rate (`risk_free_rate=0.05`). -/
noncomputable def risk_free_rate : ℝ := 5/100

/-- `PortfolioOptimizer.calculate_portfolio_stats`. -/
noncomputable def calculate_portfolio_stats (weights expected_returns : List ℝ)
    (cov_matrix : List (List ℝ)) : ℝ × ℝ × ℝ :=
  let portfolio_return := dot weights expected_returns
  let portfolio_vol := Real.sqrt (dot weights (matVec cov_matrix weights))
  (portfolio_return, portfolio_vol,
    if portfolio_vol = 0 then 0
    else (portfolio_return - risk_free_rate) / portfolio_vol)

/-- Per-asset bounds (lines 153-162): clamped to `[max(0, min_w), max_w]`
when long-only. -/
noncomputable def mkBounds (cons : OptimizationConstraints) (n : ℕ) :
    List (ℝ × ℝ) :=
  if cons.long_only then
    List.replicate n (max 0 cons.min_weight, cons.max_weight)
  else
    List.replicate n (cons.min_weight, cons.max_weight)

/-- Line 168: `if objective == TARGET_RETURN and constraints.target_return:`
— Python truthiness, so a target of exactly `0.0` adds no constraint. -/
noncomputable def pinReturnOf (objective : OptimizationObjective)
    (cons : OptimizationConstraints) : Option ℝ :=
  if objective = .TARGET_RETURN then
    match cons.target_return with
    | some t => if t = 0 then none else some t
    | none => none
  else none

/-- Line 177: same truthy test for `target_volatility`. -/
noncomputable def pinVolOf (objective : OptimizationObjective)
    (cons : OptimizationConstraints) : Option ℝ :=
  if objective = .TARGET_VOLATILITY then
    match cons.target_volatility with
    | some v => if v = 0 then none else some v
    | none => none
  else none

/-- Objective-function dispatch (lines 187-224); `RISK_PARITY` is the
unsupported case that raises `ValueError`. -/
def objFunOf (objective : OptimizationObjective) : Except String ObjFun :=
  match objective with
  | .MAX_SHARPE => .ok .negSharpe
  | .MIN_VARIANCE => .ok .variance
  | .MAX_RETURN => .ok .negReturn
  | .TARGET_RETURN => .ok .variance
  | .TARGET_VOLATILITY => .ok .variance
  | .RISK_PARITY =>
      .error "Unsupported objective: OptimizationObjective.RISK_PARITY"

/-- The problem `mean_variance_optimization` hands to the solver. -/
noncomputable def mkProblem (objective : OptimizationObjective)
    (cons : OptimizationConstraints) (n : ℕ) (f : ObjFun) : SolverProblem :=
  { objFun := f
    bounds := mkBounds cons n
    eqPinReturn := pinReturnOf objective cons
    eqPinVol := pinVolOf objective cons
    init := List.replicate n ((1 : ℝ) / n) }

/-- `PortfolioOptimizer.mean_variance_optimization`, parameterized by the
solver.  `.error` models the two raising paths (`1.0 / 0` on an empty
symbol list and the unsupported-objective `ValueError`); every other
path returns a result record. -/
noncomputable def mean_variance_optimization
    (solver : SolverProblem → SolverResult) (symbols : List String)
    (expected_returns : List ℝ) (cov_matrix : List (List ℝ))
    (objective : OptimizationObjective)
    (constraints : Option OptimizationConstraints) :
    Except String OptimizationResult :=
  let n := symbols.length
  let cons := constraints.getD defaultConstraints
  if n = 0 then .error "ZeroDivisionError: float division by zero"
  else
    match objFunOf objective with
    | .error e => .error e
    | .ok f =>
      let result := solver (mkProblem objective cons n f)
      if result.success then
        let stats := calculate_portfolio_stats result.x expected_returns
          cov_matrix
        .ok { weights := symbols.zip result.x
              expected_return := stats.1
              expected_volatility := stats.2.1
              sharpe_ratio := stats.2.2
              success := true
              message := "Optimization successful"
              iterations := result.nit }
      else
        .ok { weights := symbols.zip (List.replicate n ((1 : ℝ) / n))
              expected_return := 0
              expected_volatility := 0
              sharpe_ratio := 0
              success := false
              message := result.message
              iterations := result.nit }

/-- `np.linspace(start, stop, num)` (exact arithmetic). -/
noncomputable def linspace (start stop : ℝ) (num : ℕ) : List ℝ :=
  (List.range num).map
    (fun i => start + (stop - start) * (i : ℝ) / ((num : ℝ) - 1))

/-- The `for target in target_returns:` loop of `efficient_frontier`
(lines 461-482): fresh constraints copying only `min_weight`,
`max_weight`, `long_only`, the target pinned, unsuccessful solves
dropped. -/
noncomputable def frontierLoop (solver : SolverProblem → SolverResult)
    (symbols : List String) (expected_returns : List ℝ)
    (cov_matrix : List (List ℝ))
    (constraints : Option OptimizationConstraints) :
    List ℝ → Except String (List OptimizationResult)
  | [] => .ok []
  | target :: rest =>
      let cons :=
        match constraints with
        | none => defaultConstraints
        | some c =>
            { defaultConstraints with
                min_weight := c.min_weight
                max_weight := c.max_weight
                long_only := c.long_only }
      match mean_variance_optimization solver symbols expected_returns
        cov_matrix .TARGET_RETURN
        (some { cons with target_return := some target }) with
      | .error e => .error e
      | .ok result =>
        match frontierLoop solver symbols expected_returns cov_matrix
          constraints rest with
        | .error e => .error e
        | .ok tail => .ok (if result.success then result :: tail else tail)

/-- `PortfolioOptimizer.efficient_frontier`. -/
noncomputable def efficient_frontier (solver : SolverProblem → SolverResult)
    (symbols : List String) (expected_returns : List ℝ)
    (cov_matrix : List (List ℝ)) (n_points : ℕ)
    (constraints : Option OptimizationConstraints) :
    Except String (List OptimizationResult) :=
  match mean_variance_optimization solver symbols expected_returns cov_matrix
    .MIN_VARIANCE constraints with
  | .error e => .error e
  | .ok min_ret_result =>
    match mean_variance_optimization solver symbols expected_returns
      cov_matrix .MAX_RETURN constraints with
    | .error e => .error e
    | .ok max_ret_result =>
      let min_ret := min_ret_result.expected_return
      let max_ret := max_ret_result.expected_return
      if min_ret ≥ max_ret then .ok [min_ret_result]
      else
        frontierLoop solver symbols expected_returns cov_matrix constraints
          (linspace min_ret max_ret n_points)

/-- `PortfolioOptimizer.calculate_marginal_contribution_to_risk`. -/
noncomputable def calculate_marginal_contribution_to_risk
    (weights : List ℝ) (cov_matrix : List (List ℝ)) : List ℝ :=
  let portfolio_vol := Real.sqrt (dot weights (matVec cov_matrix weights))
  if portfolio_vol = 0 then List.replicate weights.length 0
  else (matVec cov_matrix weights).map (fun v => v / portfolio_vol)

/-- `PortfolioOptimizer.calculate_risk_contribution`: absolute
contribution `w ⊙ marginal` and its normalization by the total. -/
noncomputable def calculate_risk_contribution (weights : List ℝ)
    (cov_matrix : List (List ℝ)) : List ℝ × List ℝ :=
  let mcr := calculate_marginal_contribution_to_risk weights cov_matrix
  let absolute_contribution := List.zipWith (· * ·) weights mcr
  let total_risk := absolute_contribution.sum
  if total_risk = 0 then
    (absolute_contribution, List.replicate weights.length 0)
  else
    (absolute_contribution, absolute_contribution.map (fun v => v / total_risk))

lemma sum_map_div (l : List ℝ) (c : ℝ) :
    (l.map (fun v => v / c)).sum = l.sum / c := by
  induction l with
  | nil => simp
  | cons x xs ih => simp [ih, add_div]

/-- **C5.** Whenever the total risk (the sum of the absolute
contributions `w ⊙ marginal`) is positive, the percentage-contribution
vector returned by `calculate_risk_contribution` sums to exactly 1
(hence certainly within the 0.01 tolerance). -/
theorem risk_contribution_sums_to_one (weights : List ℝ)
    (cov_matrix : List (List ℝ))
    (h : 0 < (List.zipWith (· * ·) weights
      (calculate_marginal_contribution_to_risk weights cov_matrix)).sum) :
    ((calculate_risk_contribution weights cov_matrix).2).sum = 1 := by
  simp only [calculate_risk_contribution]
  rw [if_neg h.ne', sum_map_div, div_self h.ne']

/-- Witness for C5 at the single-asset portfolio `w = [1]`, `Σ = [[1]]`
(total risk 1). -/
theorem risk_contribution_sums_to_one_witness :
    (0 < (List.zipWith (· * ·) [(1 : ℝ)]
        (calculate_marginal_contribution_to_risk [(1 : ℝ)] [[(1 : ℝ)]])).sum) ∧
      ((calculate_risk_contribution [(1 : ℝ)] [[(1 : ℝ)]]).2).sum = 1 := by
  have hmcr : calculate_marginal_contribution_to_risk [(1 : ℝ)] [[(1 : ℝ)]] =
      [1] := by
    rw [calculate_marginal_contribution_to_risk]
    norm_num [matVec, dot, Real.sqrt_one]
  have hpos : 0 < (List.zipWith (· * ·) [(1 : ℝ)]
      (calculate_marginal_contribution_to_risk [(1 : ℝ)] [[(1 : ℝ)]])).sum := by
    rw [hmcr]; norm_num
  exact ⟨hpos, risk_contribution_sums_to_one [(1 : ℝ)] [[(1 : ℝ)]] hpos⟩

/-- **C3.** For every call with a supported objective and a non-empty
symbol list in which the solver reports failure, the function returns
(never raises) a record carrying the equal-weight `1/N` initial
allocation, `success = False`, and the solver's diagnostic message. -/
theorem mean_variance_failure_returns_equal_weights
    (solver : SolverProblem → SolverResult) (symbols : List String)
    (expected_returns : List ℝ) (cov_matrix : List (List ℝ))
    (objective : OptimizationObjective)
    (constraints : Option OptimizationConstraints) (f : ObjFun)
    (hn : symbols ≠ [])
    (hf : objFunOf objective = .ok f)
    (hfail : (solver (mkProblem objective
      (constraints.getD defaultConstraints) symbols.length f)).success = false) :
    mean_variance_optimization solver symbols expected_returns cov_matrix
        objective constraints =
      .ok { weights := symbols.zip
              (List.replicate symbols.length ((1 : ℝ) / symbols.length))
            expected_return := 0
            expected_volatility := 0
            sharpe_ratio := 0
            success := false
            message := (solver (mkProblem objective
              (constraints.getD defaultConstraints) symbols.length f)).message
            iterations := (solver (mkProblem objective
              (constraints.getD defaultConstraints) symbols.length f)).nit } := by
  have hn0 : symbols.length ≠ 0 := fun h => hn (List.eq_nil_of_length_eq_zero h)
  rw [mean_variance_optimization]
  simp only [if_neg hn0, hf, hfail]
  simp

/-- A solver outcome reporting non-convergence, used to witness C3. -/
def failingSolver : SolverProblem → SolverResult :=
  fun _ => { success := false, x := [],
             message := "Iteration limit reached", nit := 1000 }

/-- Witness for C3: a two-asset `MAX_SHARPE` call whose solver fails
yields the equal-weight `[1/2, 1/2]` allocation with `success = False`
and the solver's message. -/
theorem mean_variance_failure_returns_equal_weights_witness :
    ((["A", "B"] : List String) ≠ [] ∧
        objFunOf .MAX_SHARPE = .ok .negSharpe ∧
        (failingSolver (mkProblem .MAX_SHARPE
          ((none : Option OptimizationConstraints).getD defaultConstraints)
          (["A", "B"] : List String).length .negSharpe)).success = false) ∧
      mean_variance_optimization failingSolver ["A", "B"] [(1 : ℝ)/10, 2/10]
          [[(1 : ℝ), 0], [0, 1]] .MAX_SHARPE none =
        .ok { weights := (["A", "B"] : List String).zip
                (List.replicate (["A", "B"] : List String).length
                  ((1 : ℝ) / (["A", "B"] : List String).length))
              expected_return := 0
              expected_volatility := 0
              sharpe_ratio := 0
              success := false
              message := (failingSolver (mkProblem .MAX_SHARPE
                ((none : Option OptimizationConstraints).getD defaultConstraints)
                (["A", "B"] : List String).length .negSharpe)).message
              iterations := (failingSolver (mkProblem .MAX_SHARPE
                ((none : Option OptimizationConstraints).getD defaultConstraints)
                (["A", "B"] : List String).length .negSharpe)).nit } :=
  ⟨⟨by decide, rfl, rfl⟩,
    mean_variance_failure_returns_equal_weights failingSolver ["A", "B"]
      [(1 : ℝ)/10, 2/10] [[(1 : ℝ), 0], [0, 1]] .MAX_SHARPE none .negSharpe
      (by decide) rfl rfl⟩

/-- **C2** fails on the code: with `objective = TARGET_RETURN` and a
*specified* target return of `0.0`, the Python truthiness test
`if ... and constraints.target_return:` adds no return-pinning equality
constraint — the solver receives only the budget constraint (whose sole
member is not the pinning function: it disagrees at `x = [0]`) and
minimizes variance unconstrained.  A nonzero target (0.08, as in the
repository's tests) is pinned. -/
theorem target_return_zero_not_pinned :
    ({ defaultConstraints with target_return := some (0 : ℝ) } :
        OptimizationConstraints).target_return = some 0 ∧
      pinReturnOf .TARGET_RETURN
        { defaultConstraints with target_return := some (0 : ℝ) } = none ∧
      eqConstraintFuns [(1 : ℝ)/10] [[(1 : ℝ)]]
          (mkProblem .TARGET_RETURN
            { defaultConstraints with target_return := some (0 : ℝ) } 1
            .variance) =
        [fun (x : List ℝ) => x.sum - 1] ∧
      (fun (x : List ℝ) => x.sum - 1) [(0 : ℝ)] ≠
        dot [(0 : ℝ)] [(1 : ℝ)/10] - 0 ∧
      (mkProblem .TARGET_RETURN
        { defaultConstraints with target_return := some (0 : ℝ) } 1
        .variance).objFun = .variance ∧
      pinReturnOf .TARGET_RETURN
        { defaultConstraints with target_return := some ((8 : ℝ)/100) } =
        some (8/100) := by
  refine ⟨rfl, ?_, ?_, ?_, rfl, ?_⟩
  · simp [pinReturnOf]
  · simp [eqConstraintFuns, mkProblem, pinReturnOf, pinVolOf]
  · norm_num [dot]
  · norm_num [pinReturnOf]

/-- An exact SLSQP oracle for the two-asset instance
`expected_returns = (-0.3, 0.1)`, `cov = I`, long-only, `Σw = 1`:
* `MAX_RETURN` (`negReturn`): all weight on the higher-return asset,
  `w = (0, 1)`;
* unpinned variance minimization: `w = (1/2, 1/2)` (the unique
  minimizer of `w₁² + w₂²` on the simplex);
* variance minimization pinned to `dot(w, μ) = t`: the unique feasible
  point `w₁ = (0.1 - t)/0.4`, `w₂ = 1 - w₁` (from
  `-0.3 w₁ + 0.1 (1 - w₁) = t`).
Each outcome satisfies every constraint the problem carries exactly, so
this is a legitimate behaviour of the black-box solver. -/
noncomputable def exactSolverCE : SolverProblem → SolverResult := fun p =>
  match p.objFun, p.eqPinReturn with
  | .negSharpe, _ =>
      { success := false, x := [], message := "unused", nit := 0 }
  | .negReturn, _ =>
      { success := true, x := [0, 1],
        message := "Optimization terminated successfully", nit := 5 }
  | .variance, none =>
      { success := true, x := [1/2, 1/2],
        message := "Optimization terminated successfully", nit := 5 }
  | .variance, some t =>
      { success := true,
        x := [(1/10 - t) / (2/5), 1 - (1/10 - t) / (2/5)],
        message := "Optimization terminated successfully", nit := 5 }

/-- **C4** fails on the code: with expected returns `(-0.3, 0.1)`,
identity covariance and 5 frontier points, the generated targets are
`[-0.1, -0.05, 0, 0.05, 0.1]`; at the exactly-zero target the truthiness
bug of line 168 drops the return-pinning constraint, so that point
reverts to the global minimum-variance portfolio (expected return
`-0.1`), and the frontier's expected returns
`[-0.1, -0.05, -0.1, 0.05, 0.1]` are not non-decreasing. -/
theorem efficient_frontier_nonmonotone_counterexample :
    (efficient_frontier exactSolverCE ["A", "B"] [-(3 : ℝ)/10, 1/10]
          [[(1 : ℝ), 0], [0, 1]] 5 none).map
        (fun l => l.map OptimizationResult.expected_return) =
      .ok [-(1 : ℝ)/10, -1/20, -1/10, 1/20, 1/10] ∧
      ¬ List.Chain' (· ≤ ·) [-(1 : ℝ)/10, -1/20, -1/10, 1/20, 1/10] := by
  constructor
  · have hrange : List.range 5 = [0, 1, 2, 3, 4] := rfl
    norm_num [efficient_frontier, mean_variance_optimization, frontierLoop,
      linspace, hrange, mkProblem, pinReturnOf, pinVolOf, objFunOf,
      exactSolverCE, calculate_portfolio_stats, dot, matVec, mkBounds,
      defaultConstraints, Except.bind, Except.map]
  · intro h
    simp only [List.chain'_cons, List.chain'_singleton, and_true] at h
    have h2 := h.2.1
    norm_num at h2

end Optimization

end PortfolioManagement
